import Mathlib

/-!
Verification development for the server-dashboard repository.

This file shallowly embeds the webhook dispatcher (`handleCreateServer`,
`handleDeleteServer`, `handleServerStatusChange`, `handleMetricsUpdate`,
`processWebhook`, `webhookRouter.handleEvent`), the HMAC signature helpers
(`verifyWebhookSignature`, `generateWebhookSignature`), and the remote
telemetry layer (`ServerConnection`, `ServerConnectionPool`).

Modelling conventions:
* The relational store accessed through `db.*` is an explicit `DbState`
  record threaded through every handler; `db.createX` appends, `db.getX`
  looks up, `db.updateServer` / `db.deleteServer` rewrite the server list.
  Wall-clock timestamps (`new Date()`) are a `now : Nat` parameter.
* JavaScript falsy coercions (`x || d` where `0`, `""`, `NaN`, `undefined`
  are falsy) are made explicit through the `jsOr*` helpers; `parseFloat`,
  `parseInt` and `Number` are embedded as prefix / full-string decimal
  parsers returning `none` for `NaN` (scientific notation is out of scope
  for the command outputs involved).
* External effects (the node `crypto` HMAC primitive, `ssh.connect`,
  `ssh.dispose`, remote command stdout) are inputs: an abstract keyed-hash
  function, an `Except`-valued connect/dispose outcome, and raw stdout
  strings, respectively.  Numbers are modelled as `ℚ`.
-/

/-- JavaScript `x || d` for an optional number: `undefined`/`NaN` (here
`none`) and `0` are falsy and give the default. -/
def jsOrQ (x : Option ℚ) (d : ℚ) : ℚ :=
  match x with
  | none => d
  | some v => if v = 0 then d else v

/-- JavaScript `x || d` for an optional integer result of `parseInt`. -/
def jsOrZ (x : Option ℤ) (d : ℤ) : ℤ :=
  match x with
  | none => d
  | some v => if v = 0 then d else v

/-- JavaScript `x || d` for an optional natural (e.g. `data.port || 22`). -/
def jsOrNat (x : Option ℕ) (d : ℕ) : ℕ :=
  match x with
  | none => d
  | some v => if v = 0 then d else v

/-- JavaScript `x || d` for an optional string: `undefined` and `""` are
falsy. -/
def jsOrStr (x : Option String) (d : String) : String :=
  match x with
  | none => d
  | some s => if s = "" then d else s

/-- JavaScript truthiness of an optional string (`if (x)`): present and
non-empty. -/
def jsTruthyStr (x : Option String) : Bool :=
  match x with
  | none => false
  | some s => s ≠ ""

/-- JavaScript falsiness of an optional number (`if (!x)`): absent or `0`. -/
def jsFalsyNat (x : Option ℕ) : Bool :=
  match x with
  | none => true
  | some n => n = 0

/-- JavaScript `Math.round`: round half towards positive infinity. -/
def jsRound (q : ℚ) : ℤ := ⌊q + 1/2⌋

/-- Leading decimal digits of a character list: their value and the rest. -/
def takeDigits : List Char → ℕ × ℕ × List Char
  | [] => (0, 0, [])
  | c :: cs =>
    if c.isDigit then
      let (v, k, rest) := takeDigits cs
      ((c.toNat - '0'.toNat) * 10 ^ k + v, k + 1, rest)
    else (0, 0, c :: cs)

/-- Sign prefix of a JavaScript numeric literal: returns the sign and the
remaining characters. -/
def takeSign : List Char → ℤ × List Char
  | '-' :: cs => (-1, cs)
  | '+' :: cs => (1, cs)
  | cs => (1, cs)

/-- Parse `digits [. digits]` from the front of a character list, returning
the value and the unconsumed rest; `none` when no digit is present. -/
def parseDecimal (l : List Char) : Option (ℚ × List Char) :=
  let (ip, ik, rest) := takeDigits l
  match rest with
  | '.' :: rest2 =>
    let (fp, fk, rest3) := takeDigits rest2
    if ik = 0 ∧ fk = 0 then none
    else some ((ip : ℚ) + (fp : ℚ) / 10 ^ fk, rest3)
  | _ => if ik = 0 then none else some ((ip : ℚ), rest)

/-- JavaScript `parseFloat`: skip leading whitespace, optional sign, then a
decimal prefix; trailing garbage is ignored; `none` models `NaN`. -/
def jsParseFloat (s : String) : Option ℚ :=
  let l := s.toList.dropWhile Char.isWhitespace
  let (sgn, l2) := takeSign l
  match parseDecimal l2 with
  | none => none
  | some (v, _) => some ((sgn : ℚ) * v)

/-- JavaScript `parseInt` (radix 10): skip leading whitespace, optional
sign, then a digit prefix; `none` models `NaN`. -/
def jsParseInt (s : String) : Option ℤ :=
  let l := s.toList.dropWhile Char.isWhitespace
  let (sgn, l2) := takeSign l
  let (v, k, _) := takeDigits l2
  if k = 0 then none else some (sgn * (v : ℤ))

/-- JavaScript `Number(s)`: an empty / all-whitespace string is `0`; a full
signed decimal string is its value; anything else is `NaN` (`none`). -/
def jsNumber (s : String) : Option ℚ :=
  let l := s.toList.dropWhile Char.isWhitespace
  let l := (l.reverse.dropWhile Char.isWhitespace).reverse
  match l with
  | [] => some 0
  | _ =>
    let (sgn, l2) := takeSign l
    match parseDecimal l2 with
    | some (v, []) => some ((sgn : ℚ) * v)
    | _ => none

/-- Split a character list at every character satisfying `p` (the
separators are dropped; empty chunks are kept, as JavaScript `split`
keeps them). -/
def splitChars (p : Char → Bool) : List Char → List (List Char)
  | [] => [[]]
  | c :: cs =>
    let r := splitChars p cs
    if p c then [] :: r
    else
      match r with
      | [] => [[c]]
      | t :: ts => (c :: t) :: ts

/-- JavaScript `s.split(sep)` for a one-character separator. -/
def jsSplitChar (s : String) (sep : Char) : List String :=
  (splitChars (fun c => c = sep) s.toList).map List.asString

/-- JavaScript `s.trim()`. -/
def jsTrim (s : String) : String :=
  ((s.toList.dropWhile Char.isWhitespace).reverse.dropWhile
    Char.isWhitespace).reverse.asString

/-- JavaScript `line.split(/\s+/)` on an already-trimmed line: maximal
whitespace runs separate the tokens. -/
def splitWsTokens (s : String) : List String :=
  ((splitChars Char.isWhitespace s.toList).map List.asString).filter
    (fun t => t ≠ "")

/-- JavaScript `s.replace(pat, repl)` for string patterns: replaces the
first occurrence only. -/
def replaceFirstAux (pat repl : List Char) : List Char → List Char
  | [] => []
  | c :: cs =>
    if pat.isPrefixOf (c :: cs) then repl ++ (c :: cs).drop pat.length
    else c :: replaceFirstAux pat repl cs

/-- JavaScript `s.replace(pat, repl)` (first occurrence; no regex). -/
def jsReplace (s pat repl : String) : String :=
  (replaceFirstAux pat.toList repl.toList s.toList).asString

/-- `verifyWebhookSignature(payload, signature, secret)`: recompute the
HMAC-SHA256 hex digest of `payload` under `secret` and compare with
ordinary string equality.  `hmacSha256Hex secret payload` stands for the
node `crypto` primitive `createHmac('sha256', secret).update(payload)
.digest('hex')`, an external deterministic keyed hash. -/
def verifyWebhookSignature (hmacSha256Hex : String → String → String)
    (payload signature secret : String) : Bool :=
  let hash := hmacSha256Hex secret payload
  hash == signature

/-- `generateWebhookSignature(payload, secret)`: serialize the payload
object deterministically (`JSON.stringify`, abstracted as `stringify`) and
return its HMAC-SHA256 hex digest under `secret`. -/
def generateWebhookSignature {α : Type} (hmacSha256Hex : String → String → String)
    (stringify : α → String) (payload : α) (secret : String) : String :=
  hmacSha256Hex secret (stringify payload)

/-! ## Data model and persistence state (`db.ts`) -/

/-- One row of the `servers` table, as touched by the webhook handlers. -/
structure Server where
  id : ℕ
  name : String
  hostname : String
  ipAddress : String
  port : ℕ
  os : String
  osVersion : String
  status : String
  createdBy : ℕ
  lastSeen : ℕ
deriving DecidableEq, Repr

/-- The metrics fields carried by an `update_metrics` payload (the
`metrics` argument of `handleMetricsUpdate`). -/
structure MetricsInput where
  cpuUsage : ℚ
  ramUsage : ℚ
  ramUsagePercent : ℚ
  diskUsage : ℚ
  diskUsagePercent : ℚ
  networkIn : ℚ
  networkOut : ℚ
  activeConnections : ℚ
deriving DecidableEq, Repr

/-- One row of the `serverMetrics` table (`db.createMetric` input:
`{serverId, ...metrics, timestamp}`). -/
structure Metric where
  serverId : ℕ
  cpuUsage : ℚ
  ramUsage : ℚ
  ramUsagePercent : ℚ
  diskUsage : ℚ
  diskUsagePercent : ℚ
  networkIn : ℚ
  networkOut : ℚ
  activeConnections : ℚ
  timestamp : ℕ
deriving DecidableEq, Repr

/-- An alert candidate pushed onto the local `alerts` array in
`handleMetricsUpdate`.  Its JS `message` is `kind ++ ": " ++
value.toFixed(1) ++ "%"` (for disk, `value` is the free percentage
`100 - diskUsagePercent` and the suffix is `"% free"`); the decimal
rendering of `value` is kept as the raw rational. -/
structure AlertDraft where
  serverId : ℕ
  severity : String
  kind : String
  value : ℚ
deriving DecidableEq, Repr

/-- One row of the `alerts` table as written by `db.createAlert`. -/
structure Alert where
  serverId : ℕ
  severity : String
  kind : String
  value : ℚ
  acknowledged : Bool
  createdAt : ℕ
deriving DecidableEq, Repr

/-- One row of the `apiKeys` table, as read by the webhook router. -/
structure ApiKeyRec where
  userId : ℕ
  key : String
  active : Bool
deriving DecidableEq, Repr

/-- One row of the `users` table (only the id matters to the router). -/
structure UserRec where
  id : ℕ
deriving DecidableEq, Repr

/-- The `data` object of a webhook payload, after the per-action cast
(`payload.data as any`): either the create-server fields, the metrics
fields, or nothing. -/
inductive WebhookData where
  | empty : WebhookData
  | createData (name hostname ipAddress : Option String) (port : Option ℕ)
      (os osVersion : Option String) : WebhookData
  | metricsData (m : MetricsInput) : WebhookData
deriving DecidableEq, Repr

/-- Action-specific success envelope returned by the handlers
(`{success: true, ...}`; the JSON result logged by the router). -/
inductive ActionResult where
  | created (server : Server) (message : String) : ActionResult
  | deleted (message : String) : ActionResult
  | statusChanged (server : Option Server) (message : String) : ActionResult
  | metricsUpdated (metric : Metric) (alerts : List AlertDraft)
      (message : String) : ActionResult
deriving DecidableEq, Repr

/-- The `response` column of a webhook log row: `JSON.stringify(result)`
on success, `JSON.stringify({error: message})` on failure. -/
inductive ResponseLog where
  | ok (r : ActionResult) : ResponseLog
  | err (message : String) : ResponseLog
deriving DecidableEq, Repr

/-- One row of the `webhookLogs` table as written by
`db.createWebhookLog` (the JSON `payload` column, a serialization of the
request, is not modelled). -/
structure WebhookLogRec where
  userId : ℕ
  action : String
  serverId : Option ℕ
  response : ResponseLog
  status : String
  timestamp : ℕ
deriving DecidableEq, Repr

/-- The relational store consumed through `db.*`, with the fresh-id
counter for server inserts. -/
structure DbState where
  servers : List Server
  metrics : List Metric
  alerts : List Alert
  apiKeys : List ApiKeyRec
  users : List UserRec
  webhookLogs : List WebhookLogRec
  nextServerId : ℕ
deriving DecidableEq, Repr

/-- `db.getServerById`. -/
def getServerById (id : ℕ) (st : DbState) : Option Server :=
  st.servers.find? (fun s => s.id = id)

/-- `db.createMetric`: insert a metrics row. -/
def createMetric (m : Metric) (st : DbState) : DbState :=
  { st with metrics := st.metrics ++ [m] }

/-- `db.createAlert`: insert an alert row. -/
def createAlert (a : Alert) (st : DbState) : DbState :=
  { st with alerts := st.alerts ++ [a] }

/-- `db.createWebhookLog`: insert a webhook log row. -/
def createWebhookLog (l : WebhookLogRec) (st : DbState) : DbState :=
  { st with webhookLogs := st.webhookLogs ++ [l] }

/-- `db.deleteServer`: delete the server row with the given id. -/
def deleteServer (id : ℕ) (st : DbState) : DbState :=
  { st with servers := st.servers.filter (fun s => ¬ s.id = id) }

/-- The optional columns passed to `db.updateServer` by the handlers. -/
structure ServerUpdates where
  status : Option String := none
  lastSeen : Option ℕ := none
deriving DecidableEq, Repr

/-- Apply a partial update to one server row. -/
def applyUpdates (u : ServerUpdates) (s : Server) : Server :=
  { s with
    status := u.status.getD s.status
    lastSeen := u.lastSeen.getD s.lastSeen }

/-- `db.updateServer`: set the given columns on the matching row and
return the row re-read by id. -/
def updateServer (id : ℕ) (u : ServerUpdates) (st : DbState) :
    DbState × Option Server :=
  let st2 : DbState :=
    { st with servers := st.servers.map (fun s => if s.id = id then applyUpdates u s else s) }
  (st2, getServerById id st2)

/-- `db.createServer`: insert a server row under a fresh id and return
the created row. -/
def createServer (name hostname ipAddress : String) (port : ℕ)
    (os osVersion status : String) (createdBy lastSeen : ℕ)
    (st : DbState) : DbState × Server :=
  let s : Server :=
    { id := st.nextServerId, name := name, hostname := hostname
      ipAddress := ipAddress, port := port, os := os, osVersion := osVersion
      status := status, createdBy := createdBy, lastSeen := lastSeen }
  ({ st with servers := st.servers ++ [s], nextServerId := st.nextServerId + 1 }, s)

/-- `db.getApiKeyByKey`. -/
def getApiKeyByKey (key : String) (st : DbState) : Option ApiKeyRec :=
  st.apiKeys.find? (fun k => k.key = key)

/-- `db.getUserById`. -/
def getUserById (id : ℕ) (st : DbState) : Option UserRec :=
  st.users.find? (fun u => u.id = id)

/-! ## Webhook action handlers (`webhooks.ts`) -/

/-- The `TRPCError` thrown by the handlers: a code and a message. -/
inductive ErrCode where
  | BAD_REQUEST | NOT_FOUND | FORBIDDEN | UNAUTHORIZED
deriving DecidableEq, Repr

/-- A thrown `TRPCError`. -/
structure TRPCError where
  code : ErrCode
  message : String
deriving DecidableEq, Repr

/-- Build the metrics row `{serverId, ...metrics, timestamp: new Date()}`. -/
def mkMetric (serverId : ℕ) (m : MetricsInput) (now : ℕ) : Metric :=
  { serverId := serverId, cpuUsage := m.cpuUsage, ramUsage := m.ramUsage
    ramUsagePercent := m.ramUsagePercent, diskUsage := m.diskUsage
    diskUsagePercent := m.diskUsagePercent, networkIn := m.networkIn
    networkOut := m.networkOut, activeConnections := m.activeConnections
    timestamp := now }

/-- `handleCreateServer(data, userId)`: require `name`, `hostname` and
`ipAddress` truthy, insert the server (port defaulting to 22, os to
`Linux`, osVersion to `Unknown`, status `online`), insert one all-zero
metrics row, and return the created server. -/
def handleCreateServer (name hostname ipAddress : Option String)
    (port : Option ℕ) (os osVersion : Option String) (userId : ℕ)
    (now : ℕ) (st : DbState) : DbState × Except TRPCError ActionResult :=
  if jsTruthyStr name = false ∨ jsTruthyStr hostname = false ∨
      jsTruthyStr ipAddress = false then
    (st, .error { code := .BAD_REQUEST
                  message := "Missing required fields: name, hostname, ipAddress" })
  else
    let (st1, server) :=
      createServer (name.getD "") (hostname.getD "") (ipAddress.getD "")
        (jsOrNat port 22) (jsOrStr os "Linux") (jsOrStr osVersion "Unknown")
        "online" userId now st
    let st2 := createMetric (mkMetric server.id
      { cpuUsage := 0, ramUsage := 0, ramUsagePercent := 0, diskUsage := 0
        diskUsagePercent := 0, networkIn := 0, networkOut := 0
        activeConnections := 0 } now) st1
    (st2, .ok (.created server ("Server " ++ name.getD "" ++ " created successfully")))

/-- `handleDeleteServer(serverId, userId)`: not-found and ownership
checks, then delete. -/
def handleDeleteServer (serverId userId : ℕ) (st : DbState) :
    DbState × Except TRPCError ActionResult :=
  match getServerById serverId st with
  | none => (st, .error { code := .NOT_FOUND, message := "Server not found" })
  | some server =>
    if ¬ server.createdBy = userId then
      (st, .error { code := .FORBIDDEN
                    message := "You do not have permission to delete this server" })
    else
      (deleteServer serverId st,
       .ok (.deleted ("Server " ++ server.name ++ " deleted successfully")))

/-- `handleServerStatusChange(serverId, action, userId)`: not-found and
ownership checks, map the action to a status, update status and
lastSeen. -/
def handleServerStatusChange (serverId : ℕ) (action : String) (userId : ℕ)
    (now : ℕ) (st : DbState) : DbState × Except TRPCError ActionResult :=
  match getServerById serverId st with
  | none => (st, .error { code := .NOT_FOUND, message := "Server not found" })
  | some server =>
    if ¬ server.createdBy = userId then
      (st, .error { code := .FORBIDDEN
                    message := "You do not have permission to manage this server" })
    else
      let newStatus : String :=
        if action = "start" then "online"
        else if action = "stop" then "offline"
        else if action = "restart" then "online"
        else server.status
      let (st1, updatedServer) :=
        updateServer serverId { status := some newStatus, lastSeen := some now } st
      (st1, .ok (.statusChanged updatedServer
        ("Server " ++ action ++ " completed successfully")))

/-- The validation gate of `handleMetricsUpdate`: any of the three
percentage fields outside `[0,100]`. -/
def metricsOutOfRange (m : MetricsInput) : Bool :=
  decide (m.cpuUsage < 0) || decide (m.cpuUsage > 100) ||
  decide (m.ramUsagePercent < 0) || decide (m.ramUsagePercent > 100) ||
  decide (m.diskUsagePercent < 0) || decide (m.diskUsagePercent > 100)

/-- The fixed alert thresholds of `handleMetricsUpdate`: one critical
draft per metric strictly above 90, in the order CPU, RAM, disk. -/
def checkAlerts (serverId : ℕ) (m : MetricsInput) : List AlertDraft :=
  (if m.cpuUsage > 90 then
    [{ serverId := serverId, severity := "critical", kind := "High CPU usage"
       value := m.cpuUsage }] else []) ++
  (if m.ramUsagePercent > 90 then
    [{ serverId := serverId, severity := "critical", kind := "High memory usage"
       value := m.ramUsagePercent }] else []) ++
  (if m.diskUsagePercent > 90 then
    [{ serverId := serverId, severity := "critical", kind := "Low disk space"
       value := 100 - m.diskUsagePercent }] else [])

/-- Turn an alert draft into the row written by `db.createAlert`
(`acknowledged: false, createdAt: new Date()`). -/
def draftToAlert (now : ℕ) (a : AlertDraft) : Alert :=
  { serverId := a.serverId, severity := a.severity, kind := a.kind
    value := a.value, acknowledged := false, createdAt := now }

/-- `handleMetricsUpdate(serverId, metrics, userId)`: not-found and
ownership checks, percentage validation, store the metrics row, refresh
`lastSeen`, create one alert row per fired threshold, and return the
metric together with the raised alert drafts. -/
def handleMetricsUpdate (serverId : ℕ) (m : MetricsInput) (userId : ℕ)
    (now : ℕ) (st : DbState) : DbState × Except TRPCError ActionResult :=
  match getServerById serverId st with
  | none => (st, .error { code := .NOT_FOUND, message := "Server not found" })
  | some server =>
    if ¬ server.createdBy = userId then
      (st, .error { code := .FORBIDDEN
                    message := "You do not have permission to update this server" })
    else if metricsOutOfRange m then
      (st, .error { code := .BAD_REQUEST, message := "Invalid metrics values" })
    else
      let metric := mkMetric serverId m now
      let st1 := createMetric metric st
      let (st2, _) := updateServer serverId { lastSeen := some now } st1
      let alerts := checkAlerts serverId m
      let st3 := alerts.foldl (fun s a => createAlert (draftToAlert now a) s) st2
      (st3, .ok (.metricsUpdated metric alerts "Metrics updated successfully"))

/-! ## Webhook dispatch (`processWebhook`) and router (`handleEvent`) -/

/-- The `WebhookPayload` assembled by the router. -/
structure WebhookPayload where
  action : String
  serverId : Option ℕ
  data : WebhookData
  timestamp : ℕ
deriving DecidableEq, Repr

/-- The per-action cast `payload.data as any` for `create_server`: a
non-create payload behaves as an object with all fields `undefined`. -/
def asCreateData (d : WebhookData) :
    Option String × Option String × Option String × Option ℕ ×
    Option String × Option String :=
  match d with
  | .createData name hostname ipAddress port os osVersion =>
    (name, hostname, ipAddress, port, os, osVersion)
  | _ => (none, none, none, none, none, none)

/-- The per-action cast `payload.data as any` for `update_metrics`.  A
non-metrics payload would carry `undefined` fields in JS; the zero record
stands in for that unreachable-through-the-claims corner. -/
def asMetricsData (d : WebhookData) : MetricsInput :=
  match d with
  | .metricsData m => m
  | _ => { cpuUsage := 0, ramUsage := 0, ramUsagePercent := 0, diskUsage := 0
           diskUsagePercent := 0, networkIn := 0, networkOut := 0
           activeConnections := 0 }

/-- `processWebhook(payload, userId)`: route on the action string,
requiring a truthy `serverId` where the action needs one; unknown actions
are a `BAD_REQUEST`. -/
def processWebhook (payload : WebhookPayload) (userId : ℕ) (now : ℕ)
    (st : DbState) : DbState × Except TRPCError ActionResult :=
  if payload.action = "create_server" then
    let (name, hostname, ipAddress, port, os, osVersion) := asCreateData payload.data
    handleCreateServer name hostname ipAddress port os osVersion userId now st
  else if payload.action = "delete_server" then
    if jsFalsyNat payload.serverId then
      (st, .error { code := .BAD_REQUEST
                    message := "serverId is required for delete_server action" })
    else
      handleDeleteServer (payload.serverId.getD 0) userId st
  else if payload.action = "start_server" ∨ payload.action = "stop_server" ∨
      payload.action = "restart_server" then
    if jsFalsyNat payload.serverId then
      (st, .error { code := .BAD_REQUEST
                    message := "serverId is required for server control actions" })
    else
      handleServerStatusChange (payload.serverId.getD 0)
        (jsReplace payload.action "_server" "") userId now st
  else if payload.action = "update_metrics" then
    if jsFalsyNat payload.serverId then
      (st, .error { code := .BAD_REQUEST
                    message := "serverId is required for update_metrics action" })
    else
      handleMetricsUpdate (payload.serverId.getD 0) (asMetricsData payload.data)
        userId now st
  else
    (st, .error { code := .BAD_REQUEST
                  message := "Unknown action: " ++ payload.action })

/-- The input object of `webhookRouter.handleEvent`. -/
structure HandleEventInput where
  action : String
  serverId : Option ℕ
  data : Option WebhookData
  apiKey : String
  signature : Option String
deriving DecidableEq, Repr

/-- The `try` block of `webhookRouter.handleEvent`: API-key lookup and
active check, user resolution, dispatch, and on success the `success`
audit row attributed to the resolved user. -/
def handleEventTry (input : HandleEventInput) (now : ℕ) (st : DbState) :
    DbState × Except TRPCError ActionResult :=
  match getApiKeyByKey input.apiKey st with
  | none =>
    (st, .error { code := .UNAUTHORIZED, message := "Invalid or inactive API key" })
  | some apiKey =>
    if apiKey.active = false then
      (st, .error { code := .UNAUTHORIZED, message := "Invalid or inactive API key" })
    else
      match getUserById apiKey.userId st with
      | none => (st, .error { code := .UNAUTHORIZED, message := "User not found" })
      | some user =>
        match processWebhook
            { action := input.action, serverId := input.serverId
              data := input.data.getD .empty, timestamp := now } user.id now st with
        | (st1, .error e) => (st1, .error e)
        | (st1, .ok result) =>
          (createWebhookLog
            { userId := user.id, action := input.action, serverId := input.serverId
              response := .ok result, status := "success", timestamp := now } st1,
           .ok result)

/-- `webhookRouter.handleEvent`: run the `try` block; its `catch` appends
the `failed` audit row under the sentinel `userId: 0` and rethrows. -/
def handleEvent (input : HandleEventInput) (now : ℕ) (st : DbState) :
    DbState × Except TRPCError ActionResult :=
  match handleEventTry input now st with
  | (st1, .ok r) => (st1, .ok r)
  | (st1, .error e) =>
    let st2 := createWebhookLog
      { userId := 0, action := input.action, serverId := input.serverId
        response := .err e.message, status := "failed", timestamp := now } st1
    (st2, .error e)

/-! ## Remote sessions (`ServerConnection`) -/

/-- `ServerConnectionConfig`: hostname, port, username and the optional
credentials. -/
structure ServerConnectionConfig where
  hostname : String
  port : ℕ
  username : String
  password : Option String
  privateKey : Option String
deriving DecidableEq, Repr

/-- The object passed to `ssh.connect`: base fields plus at most one of
`privateKey` / `password`, probed by JS truthiness. -/
structure ConnectConfig where
  host : String
  port : ℕ
  username : String
  privateKey : Option String := none
  password : Option String := none
deriving DecidableEq, Repr

/-- Build the `connectConfig` object of `ServerConnection.connect`:
private key when truthy, else password when truthy, else neither. -/
def buildConnectConfig (c : ServerConnectionConfig) : ConnectConfig :=
  let base : ConnectConfig :=
    { host := c.hostname, port := c.port, username := c.username }
  if jsTruthyStr c.privateKey then { base with privateKey := c.privateKey }
  else if jsTruthyStr c.password then { base with password := c.password }
  else base

/-- A `ServerConnection`: its immutable config and the `connected` flag. -/
structure SessionState where
  config : ServerConnectionConfig
  connected : Bool
deriving DecidableEq, Repr

/-- `ServerConnection.isConnected()`. -/
def isConnected (s : SessionState) : Bool := s.connected

/-- `ServerConnection.connect()`: call `ssh.connect` on the built config
(the transport's verdict is the `sshConnect` input); a resolved call sets
`connected` and returns `true`; any rejection is caught, `connected` is
cleared and `false` is returned — the method itself never throws. -/
def sessionConnect (s : SessionState)
    (sshConnect : ConnectConfig → Except String Unit) : SessionState × Bool :=
  match sshConnect (buildConnectConfig s.config) with
  | .ok _ => ({ s with connected := true }, true)
  | .error _ => ({ s with connected := false }, false)

/-- `ServerConnection.disconnect()`: when connected, `ssh.dispose()` is
awaited (its verdict is the `dispose` input) and only a resolved call
clears `connected`; a rejection propagates with the flag still set.  When
already disconnected it is a no-op. -/
def sessionDisconnect (s : SessionState) (dispose : Except String Unit) :
    SessionState × Except String Unit :=
  if s.connected then
    match dispose with
    | .ok _ => ({ s with connected := false }, .ok ())
    | .error e => (s, .error e)
  else (s, .ok ())

/-- The parsed telemetry snapshot returned by
`ServerConnection.getMetrics`. -/
structure ServerMetricsData where
  cpuUsage : ℚ
  ramUsage : ℤ
  ramUsagePercent : ℚ
  diskUsage : ℤ
  diskUsagePercent : ℚ
  networkIn : ℚ
  networkOut : ℚ
  activeConnections : ℤ
  uptime : String
  osVersion : String
  kernelVersion : String
  cpuModel : String
  cpuCores : ℤ
  totalRam : ℤ
  totalDisk : ℤ
deriving DecidableEq, Repr

/-- The stdout of each remote command issued by
`ServerConnection.getMetrics`, in source order. -/
structure RawOutputs where
  cpuStdout : String
  ramStdout : String
  totalRamStdout : String
  diskStdout : String
  totalDiskStdout : String
  netStdout : String
  connStdout : String
  uptimeStdout : String
  osStdout : String
  kernelStdout : String
  cpuModelStdout : String
  cpuCoresStdout : String
deriving DecidableEq, Repr

/-- The parsing/assembly core of `ServerConnection.getMetrics`: each
command's stdout is parsed with the `parseFloat/parseInt/Number || d`
fallbacks of the source, derived byte counts use `Math.round`, and the
three percentages are clamped from above with `Math.min(·, 100)`. -/
def getMetricsParse (raw : RawOutputs) : ServerMetricsData :=
  let cpuUsage := jsOrQ (jsParseFloat raw.cpuStdout) 0
  let ramUsagePercent := jsOrQ (jsParseFloat raw.ramStdout) 0
  let totalRam := jsOrZ (jsParseInt raw.totalRamStdout) 0
  let ramUsage := jsRound ((ramUsagePercent / 100) * totalRam)
  let diskUsagePercent := jsOrQ (jsParseFloat raw.diskStdout) 0
  let totalDisk := jsOrZ (jsParseInt raw.totalDiskStdout) 0
  let diskUsage := jsRound ((diskUsagePercent / 100) * totalDisk)
  let nets := (jsSplitChar raw.netStdout ' ').map jsNumber
  let networkIn := nets.getD 0 none
  let networkOut := nets.getD 1 none
  let activeConnections := jsOrZ (jsParseInt raw.connStdout) 0
  { cpuUsage := min cpuUsage 100
    ramUsage := ramUsage
    ramUsagePercent := min ramUsagePercent 100
    diskUsage := diskUsage
    diskUsagePercent := min diskUsagePercent 100
    networkIn := jsOrQ networkIn 0
    networkOut := jsOrQ networkOut 0
    activeConnections := activeConnections
    uptime := jsTrim raw.uptimeStdout
    osVersion := jsTrim raw.osStdout
    kernelVersion := jsTrim raw.kernelStdout
    cpuModel := jsTrim raw.cpuModelStdout
    cpuCores := jsOrZ (jsParseInt raw.cpuCoresStdout) 1
    totalRam := totalRam
    totalDisk := totalDisk }

/-- `ServerConnection.getMetrics()`: guarded by the `connected` flag. -/
def getMetrics (s : SessionState) (raw : RawOutputs) :
    Except String ServerMetricsData :=
  if s.connected = false then .error "Not connected to server"
  else .ok (getMetricsParse raw)

/-- A row of `ServerConnection.getProcesses()` output. -/
structure ProcessRecord where
  id : ℕ
  pid : ℤ
  user : String
  cpuUsage : ℚ
  ramUsage : ℚ
  name : String
  status : String
  command : String
deriving DecidableEq, Repr

/-- Parse one non-blank `ps` line exactly as the mapper of
`getProcesses` does: whitespace-split the trimmed line, numeric fields
with `|| 0` fallbacks, `status` hard-coded to `'running'`. -/
def parseProcessLine (index : ℕ) (line : String) : ProcessRecord :=
  let parts := splitWsTokens (jsTrim line)
  { id := index
    pid := jsOrZ (jsParseInt (parts.getD 0 "")) 0
    user := jsOrStr (parts.get? 1) "unknown"
    cpuUsage := jsOrQ (jsParseFloat (parts.getD 2 "")) 0
    ramUsage := jsOrQ (jsParseFloat (parts.getD 3 "")) 0
    name := jsOrStr (parts.get? 4) "unknown"
    status := "running"
    command := " ".intercalate (parts.drop 4) }

/-- The parsing core of `ServerConnection.getProcesses()`: split stdout
into lines, drop blank lines, map each remaining line. -/
def parseProcesses (stdout : String) : List ProcessRecord :=
  (((jsSplitChar stdout '\n').filter (fun l => ¬ jsTrim l = "")).enum).map
    (fun p => parseProcessLine p.1 p.2)

/-- `ServerConnection.getProcesses()`: guarded by the `connected` flag
(the surrounding `catch` returns `[]` only if a remote command itself
rejects, which the stdout-as-input model does not produce). -/
def getProcesses (s : SessionState) (stdout : String) :
    Except String (List ProcessRecord) :=
  if s.connected = false then .error "Not connected to server"
  else .ok (parseProcesses stdout)

/-! ## Connection pool (`ServerConnectionPool`) -/

/-- `ServerConnectionPool`: the `Map` from server id to connection,
modelled as an association list with unique keys maintained by `set`. -/
structure Pool where
  connections : List (ℕ × SessionState)
deriving DecidableEq, Repr

/-- `Map.get`. -/
def poolGet (p : Pool) (serverId : ℕ) : Option SessionState :=
  (p.connections.find? (fun e => e.1 = serverId)).map (fun e => e.2)

/-- `ServerConnectionPool.addConnection` (`Map.set`). -/
def addConnection (p : Pool) (serverId : ℕ) (s : SessionState) : Pool :=
  if p.connections.any (fun e => e.1 = serverId) then
    { connections := p.connections.map
        (fun e => if e.1 = serverId then (serverId, s) else e) }
  else
    { connections := p.connections ++ [(serverId, s)] }

/-- `ServerConnectionPool.getConnection`. -/
def getConnection (p : Pool) (serverId : ℕ) : Option SessionState :=
  poolGet p serverId

/-- `ServerConnectionPool.removeConnection`: when a connection is held,
call its `disconnect()` (fire-and-forget in the source; sequentialized
here) and delete the map entry.  The final state of the evicted session
is returned alongside so that theorems can speak about it. -/
def removeConnection (p : Pool) (serverId : ℕ)
    (dispose : Except String Unit) : Pool × Option SessionState :=
  match poolGet p serverId with
  | none => (p, none)
  | some conn =>
    let (conn2, _) := sessionDisconnect conn dispose
    ({ connections := p.connections.filter (fun e => ¬ e.1 = serverId) },
     some conn2)

/-- The `for … await conn.disconnect()` loop of `disconnectAll` over the
snapshot of values: stops at the first rejected disconnect, leaving the
remaining sessions untouched. -/
def disconnectSeq (oracle : ℕ → Except String Unit) :
    List (ℕ × SessionState) → List (ℕ × SessionState) × Except String Unit
  | [] => ([], .ok ())
  | (i, s) :: rest =>
    let (s2, r) := sessionDisconnect s (oracle i)
    match r with
    | .error e => ((i, s2) :: rest, .error e)
    | .ok _ =>
      let (rest2, r2) := disconnectSeq oracle rest
      ((i, s2) :: rest2, r2)

/-- `ServerConnectionPool.disconnectAll`: disconnect every session in
iteration order, then clear the map; a rejection aborts the loop before
`clear()` and propagates. -/
def disconnectAll (p : Pool) (oracle : ℕ → Except String Unit) :
    Pool × Except String Unit :=
  match disconnectSeq oracle p.connections with
  | (_, .ok _) => ({ connections := [] }, .ok ())
  | (cs, .error e) => ({ connections := cs }, .error e)

/-! ## Claims -/

/-- Claim C3: verifying the signature produced by signing a payload with a
secret succeeds for every payload/secret pair, and verifying any signature
that differs from the correct digest (in at least one byte, hence as a
string) fails, for every deterministic keyed-hash primitive. -/
theorem verify_sign_roundtrip {α : Type} (hmacSha256Hex : String → String → String)
    (stringify : α → String) (payload : α) (secret : String) :
    verifyWebhookSignature hmacSha256Hex (stringify payload)
      (generateWebhookSignature hmacSha256Hex stringify payload secret) secret = true ∧
    ∀ sig : String,
      sig ≠ generateWebhookSignature hmacSha256Hex stringify payload secret →
      verifyWebhookSignature hmacSha256Hex (stringify payload) sig secret = false := by
  refine ⟨?_, ?_⟩
  · simp [verifyWebhookSignature, generateWebhookSignature]
  · intro sig h
    simp only [verifyWebhookSignature, generateWebhookSignature, beq_eq_false_iff_ne, ne_eq]
    intro hh
    exact h (by simp [generateWebhookSignature, hh])

/-- Witness for C3 at a concrete hash, payload and secret. -/
theorem verify_sign_roundtrip_witness :
    verifyWebhookSignature (fun s p => s ++ p) ((fun x : String => x) "a")
      (generateWebhookSignature (fun s p => s ++ p) (fun x : String => x) "a" "b") "b" = true ∧
    verifyWebhookSignature (fun s p => s ++ p) ((fun x : String => x) "a") "zz" "b" = false :=
  ⟨(verify_sign_roundtrip (fun s p => s ++ p) (fun x : String => x) "a" "b").1,
   (verify_sign_roundtrip (fun s p => s ++ p) (fun x : String => x) "a" "b").2 "zz" (by decide)⟩

/-- Claim C7: `connect()` never throws — for every transport verdict it
returns a boolean; a rejected `ssh.connect` yields `false` with the
session left disconnected, a resolved one yields `true` with the session
connected; and the config handed to the transport carries the private key
when present (truthy), otherwise the password. -/
theorem sessionConnect_never_throws (s : SessionState)
    (f : ConnectConfig → Except String Unit) :
    (∀ e, f (buildConnectConfig s.config) = .error e →
      sessionConnect s f = ({ s with connected := false }, false) ∧
      isConnected (sessionConnect s f).1 = false) ∧
    (f (buildConnectConfig s.config) = .ok () →
      sessionConnect s f = ({ s with connected := true }, true) ∧
      isConnected (sessionConnect s f).1 = true) ∧
    (buildConnectConfig s.config).privateKey =
      (if jsTruthyStr s.config.privateKey then s.config.privateKey else none) ∧
    (buildConnectConfig s.config).password =
      (if jsTruthyStr s.config.privateKey then none
       else if jsTruthyStr s.config.password then s.config.password else none) := by
  refine ⟨?_, ?_, ?_, ?_⟩
  · intro e he
    simp [sessionConnect, he, isConnected]
  · intro hok
    simp [sessionConnect, hok, isConnected]
  · by_cases h : jsTruthyStr s.config.privateKey <;>
      by_cases h2 : jsTruthyStr s.config.password <;>
      simp [buildConnectConfig, h, h2]
  · by_cases h : jsTruthyStr s.config.privateKey <;>
      by_cases h2 : jsTruthyStr s.config.password <;>
      simp [buildConnectConfig, h, h2]

/-- Witness for C7: a concrete session, one rejected and one resolved
connect attempt. -/
theorem sessionConnect_never_throws_witness :
    sessionConnect ⟨⟨"h", 22, "u", some "pw", none⟩, false⟩ (fun _ => .error "refused") =
      (⟨⟨"h", 22, "u", some "pw", none⟩, false⟩, false) ∧
    sessionConnect ⟨⟨"h", 22, "u", some "pw", none⟩, false⟩ (fun _ => .ok ()) =
      (⟨⟨"h", 22, "u", some "pw", none⟩, true⟩, true) :=
  ⟨((sessionConnect_never_throws ⟨⟨"h", 22, "u", some "pw", none⟩, false⟩
      (fun _ => .error "refused")).1 "refused" rfl).1,
   ((sessionConnect_never_throws ⟨⟨"h", 22, "u", some "pw", none⟩, false⟩
      (fun _ => .ok ())).2.1 rfl).1⟩

/-- Claim C10: every process record produced by `getProcesses` has status
literally `'running'`; the other `ProcessRecord` statuses (sleeping,
stopped, zombie) never occur in its output. -/
theorem getProcesses_status_running (s : SessionState) (stdout : String)
    (l : List ProcessRecord) (h : getProcesses s stdout = .ok l) :
    ∀ r ∈ l, r.status = "running" ∧ r.status ≠ "sleeping" ∧
      r.status ≠ "stopped" ∧ r.status ≠ "zombie" := by
  intro r hr
  have hl : l = parseProcesses stdout := by
    unfold getProcesses at h
    split at h
    · exact absurd h (by simp)
    · exact (Except.ok.injEq _ _ ▸ h.symm :)
  subst hl
  unfold parseProcesses at hr
  rw [List.mem_map] at hr
  obtain ⟨p, _, rfl⟩ := hr
  simp [parseProcessLine]

/-- Witness for C10 on one concrete `ps` output line. -/
theorem getProcesses_status_running_witness :
    (parseProcessLine 0 "a b c d e").status = "running" :=
  ((getProcesses_status_running ⟨⟨"h", 22, "u", none, none⟩, true⟩ "a b c d e"
      (parseProcesses "a b c d e") rfl)
    (parseProcessLine 0 "a b c d e") (by decide)).1

/-- Folding `db.createAlert` over drafts only appends the corresponding
alert rows. -/
theorem foldl_createAlert_eq (now : ℕ) (l : List AlertDraft) (st : DbState) :
    l.foldl (fun s a => createAlert (draftToAlert now a) s) st =
      { st with alerts := st.alerts ++ l.map (draftToAlert now) } := by
  induction l generalizing st with
  | nil => simp
  | cons a t ih =>
    rw [List.foldl_cons, ih]
    simp [createAlert, List.append_assoc]

/-- Claim C6: deleting a host that exists but is owned by someone else
fails with the permission error and leaves the host present; deleting an
absent host fails with the not-found error. -/
theorem handleDeleteServer_authorization (sid uid : ℕ) (st : DbState)
    (server : Server) (hs : getServerById sid st = some server)
    (ho : ¬ server.createdBy = uid) :
    handleDeleteServer sid uid st =
      (st, .error { code := .FORBIDDEN
                    message := "You do not have permission to delete this server" }) ∧
    getServerById sid (handleDeleteServer sid uid st).1 = some server ∧
    ∀ (sid2 : ℕ) (st2 : DbState), getServerById sid2 st2 = none →
      handleDeleteServer sid2 uid st2 =
        (st2, .error { code := .NOT_FOUND, message := "Server not found" }) := by
  have hmain : handleDeleteServer sid uid st =
      (st, .error { code := .FORBIDDEN
                    message := "You do not have permission to delete this server" }) := by
    unfold handleDeleteServer
    rw [hs]
    simp [ho]
  refine ⟨hmain, ?_, ?_⟩
  · rw [hmain]
    exact hs
  · intro sid2 st2 h2
    unfold handleDeleteServer
    rw [h2]

/-- Witness for C6: host 1 owned by user 2, caller 3; host 9 absent. -/
theorem handleDeleteServer_authorization_witness :
    handleDeleteServer 1 3
      { servers := [⟨1, "A", "h", "ip", 22, "Linux", "1", "online", 2, 0⟩]
        metrics := [], alerts := [], apiKeys := [], users := []
        webhookLogs := [], nextServerId := 2 } =
      ({ servers := [⟨1, "A", "h", "ip", 22, "Linux", "1", "online", 2, 0⟩]
         metrics := [], alerts := [], apiKeys := [], users := []
         webhookLogs := [], nextServerId := 2 },
       .error { code := .FORBIDDEN
                message := "You do not have permission to delete this server" }) ∧
    handleDeleteServer 9 3
      { servers := [], metrics := [], alerts := [], apiKeys := [], users := []
        webhookLogs := [], nextServerId := 1 } =
      ({ servers := [], metrics := [], alerts := [], apiKeys := [], users := []
         webhookLogs := [], nextServerId := 1 },
       .error { code := .NOT_FOUND, message := "Server not found" }) :=
  ⟨(handleDeleteServer_authorization 1 3 _
      ⟨1, "A", "h", "ip", 22, "Linux", "1", "online", 2, 0⟩ (by decide) (by decide)).1,
   (handleDeleteServer_authorization 1 3
      { servers := [⟨1, "A", "h", "ip", 22, "Linux", "1", "online", 2, 0⟩]
        metrics := [], alerts := [], apiKeys := [], users := []
        webhookLogs := [], nextServerId := 2 }
      ⟨1, "A", "h", "ip", 22, "Linux", "1", "online", 2, 0⟩ (by decide) (by decide)).2.2
     9 _ (by decide)⟩

/-- Claim C5: an `update_metrics` dispatch that reaches validation (host
present, caller owns it) with any percentage outside `[0,100]` fails with
the `BAD_REQUEST` validation error and leaves the store untouched: no
snapshot row, no `lastSeen` refresh, no alert row. -/
theorem handleMetricsUpdate_invalid_rejected (sid uid now : ℕ) (st : DbState)
    (server : Server) (m : MetricsInput)
    (hs : getServerById sid st = some server) (ho : server.createdBy = uid)
    (hv : metricsOutOfRange m = true) :
    handleMetricsUpdate sid m uid now st =
      (st, .error { code := .BAD_REQUEST, message := "Invalid metrics values" }) ∧
    (handleMetricsUpdate sid m uid now st).1.metrics = st.metrics ∧
    (handleMetricsUpdate sid m uid now st).1.servers = st.servers ∧
    (handleMetricsUpdate sid m uid now st).1.alerts = st.alerts := by
  have hmain : handleMetricsUpdate sid m uid now st =
      (st, .error { code := .BAD_REQUEST, message := "Invalid metrics values" }) := by
    unfold handleMetricsUpdate
    rw [hs]
    simp [ho, hv]
  exact ⟨hmain, by rw [hmain], by rw [hmain], by rw [hmain]⟩

/-- Witness for C5: cpuUsage 150 on an owned host. -/
theorem handleMetricsUpdate_invalid_rejected_witness :
    handleMetricsUpdate 1 ⟨150, 0, 50, 0, 50, 0, 0, 0⟩ 2 5
      { servers := [⟨1, "A", "h", "ip", 22, "Linux", "1", "online", 2, 0⟩]
        metrics := [], alerts := [], apiKeys := [], users := []
        webhookLogs := [], nextServerId := 2 } =
      ({ servers := [⟨1, "A", "h", "ip", 22, "Linux", "1", "online", 2, 0⟩]
         metrics := [], alerts := [], apiKeys := [], users := []
         webhookLogs := [], nextServerId := 2 },
       .error { code := .BAD_REQUEST, message := "Invalid metrics values" }) :=
  (handleMetricsUpdate_invalid_rejected 1 2 5 _
    ⟨1, "A", "h", "ip", 22, "Linux", "1", "online", 2, 0⟩
    ⟨150, 0, 50, 0, 50, 0, 0, 0⟩ (by decide) (by decide) (by decide)).1

/-- Success path of `handleMetricsUpdate`: with the host present, owned
and the percentages in range, the snapshot row is stored, `lastSeen` is
refreshed, and one alert row per fired threshold is created. -/
theorem handleMetricsUpdate_ok (sid uid now : ℕ) (st : DbState)
    (server : Server) (m : MetricsInput)
    (hs : getServerById sid st = some server) (ho : server.createdBy = uid)
    (hv : metricsOutOfRange m = false) :
    handleMetricsUpdate sid m uid now st =
      ({ (updateServer sid { lastSeen := some now }
            (createMetric (mkMetric sid m now) st)).1 with
         alerts := st.alerts ++ (checkAlerts sid m).map (draftToAlert now) },
       .ok (.metricsUpdated (mkMetric sid m now) (checkAlerts sid m)
         "Metrics updated successfully")) := by
  unfold handleMetricsUpdate
  rw [hs]
  simp only [ho, not_true_eq_false, if_false, hv, Bool.false_eq_true]
  rw [foldl_createAlert_eq]
  simp [updateServer, createMetric]

/-- Claim C2: an `update_metrics` dispatch that passes ownership and
validation creates exactly one critical alert per metric strictly above
90 and no others; a metric equal to 90 raises nothing for that metric. -/
theorem handleMetricsUpdate_alert_policy (sid uid now : ℕ) (st : DbState)
    (server : Server) (m : MetricsInput)
    (hs : getServerById sid st = some server) (ho : server.createdBy = uid)
    (hv : metricsOutOfRange m = false) :
    (handleMetricsUpdate sid m uid now st).2 =
      .ok (.metricsUpdated (mkMetric sid m now) (checkAlerts sid m)
        "Metrics updated successfully") ∧
    (handleMetricsUpdate sid m uid now st).1.alerts =
      st.alerts ++ (checkAlerts sid m).map (draftToAlert now) ∧
    ((checkAlerts sid m).filter (fun a => a.kind = "High CPU usage")).length =
      (if m.cpuUsage > 90 then 1 else 0) ∧
    ((checkAlerts sid m).filter (fun a => a.kind = "High memory usage")).length =
      (if m.ramUsagePercent > 90 then 1 else 0) ∧
    ((checkAlerts sid m).filter (fun a => a.kind = "Low disk space")).length =
      (if m.diskUsagePercent > 90 then 1 else 0) ∧
    (checkAlerts sid m).length =
      (if m.cpuUsage > 90 then 1 else 0) + (if m.ramUsagePercent > 90 then 1 else 0) +
      (if m.diskUsagePercent > 90 then 1 else 0) ∧
    ∀ a ∈ checkAlerts sid m, a.severity = "critical" := by
  have hok := handleMetricsUpdate_ok sid uid now st server m hs ho hv
  refine ⟨by rw [hok], by rw [hok], ?_, ?_, ?_, ?_, ?_⟩
  · by_cases h1 : m.cpuUsage > 90 <;> by_cases h2 : m.ramUsagePercent > 90 <;>
      by_cases h3 : m.diskUsagePercent > 90 <;> simp [checkAlerts, h1, h2, h3]
  · by_cases h1 : m.cpuUsage > 90 <;> by_cases h2 : m.ramUsagePercent > 90 <;>
      by_cases h3 : m.diskUsagePercent > 90 <;> simp [checkAlerts, h1, h2, h3]
  · by_cases h1 : m.cpuUsage > 90 <;> by_cases h2 : m.ramUsagePercent > 90 <;>
      by_cases h3 : m.diskUsagePercent > 90 <;> simp [checkAlerts, h1, h2, h3]
  · by_cases h1 : m.cpuUsage > 90 <;> by_cases h2 : m.ramUsagePercent > 90 <;>
      by_cases h3 : m.diskUsagePercent > 90 <;> simp [checkAlerts, h1, h2, h3]
  · intro a ha
    by_cases h1 : m.cpuUsage > 90 <;> by_cases h2 : m.ramUsagePercent > 90 <;>
      by_cases h3 : m.diskUsagePercent > 90 <;>
      simp [checkAlerts, h1, h2, h3] at ha <;> rcases ha with h | h | h <;>
      simp_all

/-- Witness for C2: cpuUsage 95 alone fires exactly the CPU alert. -/
theorem handleMetricsUpdate_alert_policy_witness :
    (handleMetricsUpdate 1 ⟨95, 0, 50, 0, 50, 0, 0, 0⟩ 2 5
      { servers := [⟨1, "A", "h", "ip", 22, "Linux", "1", "online", 2, 0⟩]
        metrics := [], alerts := [], apiKeys := [], users := []
        webhookLogs := [], nextServerId := 2 }).1.alerts =
      [] ++ (checkAlerts 1 ⟨95, 0, 50, 0, 50, 0, 0, 0⟩).map (draftToAlert 5) ∧
    ((checkAlerts 1 ⟨95, 0, 50, 0, 50, 0, 0, 0⟩).filter
      (fun a => a.kind = "High CPU usage")).length = 1 :=
  ⟨(handleMetricsUpdate_alert_policy 1 2 5 _
      ⟨1, "A", "h", "ip", 22, "Linux", "1", "online", 2, 0⟩
      ⟨95, 0, 50, 0, 50, 0, 0, 0⟩ (by decide) (by decide) (by decide)).2.1,
   by
    have h := (handleMetricsUpdate_alert_policy 1 2 5
      { servers := [⟨1, "A", "h", "ip", 22, "Linux", "1", "online", 2, 0⟩]
        metrics := [], alerts := [], apiKeys := [], users := []
        webhookLogs := [], nextServerId := 2 }
      ⟨1, "A", "h", "ip", 22, "Linux", "1", "online", 2, 0⟩
      ⟨95, 0, 50, 0, 50, 0, 0, 0⟩ (by decide) (by decide) (by decide)).2.2.1
    rw [h]
    decide⟩

/-- Looking up a key in the pool list after filtering that key out finds
nothing. -/
theorem find_after_filter_ne (l : List (ℕ × SessionState)) (k : ℕ) :
    (l.filter (fun e => ¬ e.1 = k)).find? (fun e => e.1 = k) = none := by
  apply List.find?_eq_none.mpr
  intro e he
  rw [List.mem_filter] at he
  simpa using he.2

/-- Claim C9: removing a held session disconnects it before deleting the
entry, so the subsequent lookup is absent and the evicted session (with
its dispose call resolved) reports `isConnected() = false`. -/
theorem removeConnection_disconnects (p : Pool) (hostId : ℕ)
    (conn : SessionState) (h : getConnection p hostId = some conn) :
    getConnection (removeConnection p hostId (.ok ())).1 hostId = none ∧
    ∃ conn2 : SessionState, (removeConnection p hostId (.ok ())).2 = some conn2 ∧
      isConnected conn2 = false := by
  have hrem : removeConnection p hostId (.ok ()) =
      ({ connections := p.connections.filter (fun e => ¬ e.1 = hostId) },
       some (sessionDisconnect conn (.ok ())).1) := by
    unfold removeConnection
    rw [show poolGet p hostId = some conn from h]
  refine ⟨?_, (sessionDisconnect conn (.ok ())).1, ?_, ?_⟩
  · rw [hrem]
    simp [getConnection, poolGet, find_after_filter_ne]
  · rw [hrem]
  · unfold sessionDisconnect
    by_cases hc : conn.connected <;> simp [hc, isConnected]

/-- Witness for C9: a pool holding one connected session for host 1. -/
theorem removeConnection_disconnects_witness :
    getConnection
      (removeConnection
        { connections := [(1, ⟨⟨"h", 22, "u", none, none⟩, true⟩)] } 1 (.ok ())).1
      1 = none :=
  (removeConnection_disconnects
    { connections := [(1, ⟨⟨"h", 22, "u", none, none⟩, true⟩)] } 1
    ⟨⟨"h", 22, "u", none, none⟩, true⟩ (by decide)).1

deriving instance DecidableEq for Except

/-- Unfolding step of the disconnect loop on a non-empty pool list. -/
theorem disconnectSeq_cons (oracle : ℕ → Except String Unit) (i : ℕ)
    (s : SessionState) (rest : List (ℕ × SessionState)) :
    disconnectSeq oracle ((i, s) :: rest) =
      (match (sessionDisconnect s (oracle i)).2 with
       | .error e => ((i, (sessionDisconnect s (oracle i)).1) :: rest, .error e)
       | .ok _ =>
         ((i, (sessionDisconnect s (oracle i)).1) :: (disconnectSeq oracle rest).1,
          (disconnectSeq oracle rest).2)) := by
  rcases h : (sessionDisconnect s (oracle i)).2 with e | u <;>
    simp only [disconnectSeq, h]

/-- Counterexample for claim C8: with two connected sessions and the
first dispose rejecting, `disconnectAll` aborts — the second session is
never disconnected (it stays connected in the pool) and the pool is not
cleared, against the claimed collect-and-continue behaviour and the
claimed emptiness. -/
theorem disconnectAll_abort_counterexample :
    (disconnectAll
      { connections := [(1, ⟨⟨"h1", 22, "u", none, none⟩, true⟩),
                        (2, ⟨⟨"h2", 22, "u", none, none⟩, true⟩)] }
      (fun i => if i = 1 then .error "dispose failed" else .ok ())).2 =
      .error "dispose failed" ∧
    (disconnectAll
      { connections := [(1, ⟨⟨"h1", 22, "u", none, none⟩, true⟩),
                        (2, ⟨⟨"h2", 22, "u", none, none⟩, true⟩)] }
      (fun i => if i = 1 then .error "dispose failed" else .ok ())).1.connections ≠ [] ∧
    getConnection
      (disconnectAll
        { connections := [(1, ⟨⟨"h1", 22, "u", none, none⟩, true⟩),
                          (2, ⟨⟨"h2", 22, "u", none, none⟩, true⟩)] }
        (fun i => if i = 1 then .error "dispose failed" else .ok ())).1 2 =
      some ⟨⟨"h2", 22, "u", none, none⟩, true⟩ := by
  refine ⟨by decide, by decide, by decide⟩

/-- `sessionDisconnect` under a resolved dispose always succeeds and
clears the flag. -/
theorem sessionDisconnect_ok (s : SessionState) :
    (sessionDisconnect s (.ok ())).2 = .ok () ∧
    (sessionDisconnect s (.ok ())).1.connected = false := by
  unfold sessionDisconnect
  by_cases hc : s.connected <;> simp [hc]

/-- The disconnect loop with every dispose resolving runs to completion. -/
theorem disconnectSeq_all_ok (oracle : ℕ → Except String Unit)
    (l : List (ℕ × SessionState)) (h : ∀ e ∈ l, oracle e.1 = .ok ()) :
    (disconnectSeq oracle l).2 = .ok () := by
  induction l with
  | nil => rfl
  | cons a t ih =>
    obtain ⟨i, s⟩ := a
    have hi : oracle i = .ok () := h _ (List.mem_cons_self _ _)
    unfold disconnectSeq
    rw [hi]
    have hd := sessionDisconnect_ok s
    rw [show sessionDisconnect s (.ok ()) =
      ((sessionDisconnect s (.ok ())).1, .ok ()) from Prod.ext rfl hd.1]
    simp only []
    rw [ih (fun e he => h e (List.mem_cons_of_mem _ he))]

/-- The disconnect loop on a pool list made of a fully-resolving prefix
followed by a connected session whose dispose rejects: the prefix is
disconnected, the loop stops at the failure, and the failing entry and
everything after it keep their states. -/
theorem disconnectSeq_abort (oracle : ℕ → Except String Unit) :
    ∀ (pre : List (ℕ × SessionState)) (i : ℕ) (s : SessionState)
      (rest : List (ℕ × SessionState)) (e : String),
      (∀ e2 ∈ pre, oracle e2.1 = .ok ()) →
      s.connected = true → oracle i = .error e →
      disconnectSeq oracle (pre ++ (i, s) :: rest) =
        (pre.map (fun e2 => (e2.1, (sessionDisconnect e2.2 (.ok ())).1)) ++
          (i, s) :: rest, .error e) := by
  intro pre
  induction pre with
  | nil =>
    intro i s rest e _ hc he
    have hsd : sessionDisconnect s (.error e) = (s, .error e) := by
      unfold sessionDisconnect
      rw [hc]
      simp
    rw [List.nil_append, disconnectSeq_cons, he, hsd]
    simp
  | cons a pre2 ih =>
    intro i s rest e hpre hc he
    obtain ⟨j, t⟩ := a
    have hj : oracle j = .ok () := hpre _ (List.mem_cons_self _ _)
    have hrec := ih i s rest e (fun e2 he2 => hpre e2 (List.mem_cons_of_mem _ he2)) hc he
    rw [List.cons_append, disconnectSeq_cons, hj,
      show (sessionDisconnect t (.ok ())).2 = .ok () from (sessionDisconnect_ok t).1]
    simp only [hrec]
    simp

/-- Claim C8 (amended): `disconnectAll` disconnects the pooled sessions
in sequence; when every dispose resolves the pool is emptied (every
subsequent lookup is absent); a rejected dispose — at any position, after
any number of successful disconnects — aborts the loop: the error
propagates, the failing session and every later one are not disconnected
(they keep their states), and the pool is not cleared. -/
theorem disconnectAll_amended (p : Pool) (oracle : ℕ → Except String Unit) :
    ((∀ e ∈ p.connections, oracle e.1 = .ok ()) →
      disconnectAll p oracle = ({ connections := [] }, .ok ()) ∧
      ∀ k, getConnection (disconnectAll p oracle).1 k = none) ∧
    (∀ (pre : List (ℕ × SessionState)) (i : ℕ) (s : SessionState)
      (rest : List (ℕ × SessionState)) (e : String),
      p.connections = pre ++ (i, s) :: rest →
      (∀ e2 ∈ pre, oracle e2.1 = .ok ()) →
      s.connected = true → oracle i = .error e →
      (disconnectAll p oracle).2 = .error e ∧
      (disconnectAll p oracle).1.connections =
        pre.map (fun e2 => (e2.1, (sessionDisconnect e2.2 (.ok ())).1)) ++
          (i, s) :: rest ∧
      (disconnectAll p oracle).1.connections ≠ []) := by
  constructor
  · intro h
    have hseq := disconnectSeq_all_ok oracle p.connections h
    have hall : disconnectAll p oracle = ({ connections := [] }, .ok ()) := by
      unfold disconnectAll
      rw [show disconnectSeq oracle p.connections =
        ((disconnectSeq oracle p.connections).1, .ok ()) from Prod.ext rfl hseq]
    exact ⟨hall, fun k => by rw [hall]; rfl⟩
  · intro pre i s rest e hp hpre hc he
    have hseq := disconnectSeq_abort oracle pre i s rest e hpre hc he
    have hall : disconnectAll p oracle =
        ({ connections :=
            pre.map (fun e2 => (e2.1, (sessionDisconnect e2.2 (.ok ())).1)) ++
              (i, s) :: rest }, .error e) := by
      unfold disconnectAll
      rw [hp, hseq]
    refine ⟨by rw [hall], by rw [hall], ?_⟩
    rw [hall]
    simp

/-- Witness for C8 (amended): both branches at concrete pools — an
all-resolving pool of two sessions drains to empty; a rejection at the
second entry, after one successful disconnect, aborts with the error and
leaves the failing session connected and the pool populated. -/
theorem disconnectAll_amended_witness :
    disconnectAll
      { connections := [(1, ⟨⟨"h1", 22, "u", none, none⟩, true⟩),
                        (2, ⟨⟨"h2", 22, "u", none, none⟩, false⟩)] }
      (fun _ => .ok ()) = ({ connections := [] }, .ok ()) ∧
    (disconnectAll
      { connections := [(1, ⟨⟨"h1", 22, "u", none, none⟩, true⟩),
                        (2, ⟨⟨"h2", 22, "u", none, none⟩, true⟩)] }
      (fun i => if i = 1 then .ok () else .error "boom")).2 = .error "boom" ∧
    (disconnectAll
      { connections := [(1, ⟨⟨"h1", 22, "u", none, none⟩, true⟩),
                        (2, ⟨⟨"h2", 22, "u", none, none⟩, true⟩)] }
      (fun i => if i = 1 then .ok () else .error "boom")).1.connections =
      [(1, ⟨⟨"h1", 22, "u", none, none⟩, true⟩)].map
        (fun e2 => (e2.1, (sessionDisconnect e2.2 (.ok ())).1)) ++
        (2, ⟨⟨"h2", 22, "u", none, none⟩, true⟩) :: [] :=
  ⟨((disconnectAll_amended
      { connections := [(1, ⟨⟨"h1", 22, "u", none, none⟩, true⟩),
                        (2, ⟨⟨"h2", 22, "u", none, none⟩, false⟩)] }
      (fun _ => .ok ())).1 (by decide)).1,
   ((disconnectAll_amended
      { connections := [(1, ⟨⟨"h1", 22, "u", none, none⟩, true⟩),
                        (2, ⟨⟨"h2", 22, "u", none, none⟩, true⟩)] }
      (fun i => if i = 1 then .ok () else .error "boom")).2
     [(1, ⟨⟨"h1", 22, "u", none, none⟩, true⟩)] 2
     ⟨⟨"h2", 22, "u", none, none⟩, true⟩ [] "boom" rfl (by decide)
     rfl (by decide)).1,
   ((disconnectAll_amended
      { connections := [(1, ⟨⟨"h1", 22, "u", none, none⟩, true⟩),
                        (2, ⟨⟨"h2", 22, "u", none, none⟩, true⟩)] }
      (fun i => if i = 1 then .ok () else .error "boom")).2
     [(1, ⟨⟨"h1", 22, "u", none, none⟩, true⟩)] 2
     ⟨⟨"h2", 22, "u", none, none⟩, true⟩ [] "boom" rfl (by decide)
     rfl (by decide)).2.1⟩

/-- Evaluation of the cpu parse pipeline on the stdout `"-5"`: `parseFloat`
yields `-5`, which is truthy, and `Math.min(-5, 100)` keeps it. -/
theorem jsParseFloat_neg_five : jsParseFloat "-5" = some (-5) := by
  have h0 : "-5".toList.dropWhile Char.isWhitespace = ['-', '5'] := by decide
  have h1 : takeSign ['-', '5'] = (-1, ['5']) := by decide
  have h2 : takeDigits ['5'] = (5, 1, []) := by decide
  have h3 : parseDecimal ['5'] = some ((5 : ℚ), []) := by
    simp [parseDecimal, h2]
  simp [jsParseFloat, h0, h1, h3]

/-- Counterexample for claim C4: a successful `update_metrics` dispatch
persists a snapshot with `networkIn = -1` (byte/count fields are not
checked against 0), and a collected snapshot whose cpu command printed
`-5` stores a negative cpu percentage (only the upper clamp exists). -/
theorem metrics_clamp_counterexample :
    (handleMetricsUpdate 1 ⟨50, 0, 50, 0, 50, -1, 0, 0⟩ 7 5
      { servers := [⟨1, "A", "h", "ip", 22, "Linux", "1", "online", 7, 0⟩]
        metrics := [], alerts := [], apiKeys := [], users := []
        webhookLogs := [], nextServerId := 2 }).2 =
      .ok (.metricsUpdated (mkMetric 1 ⟨50, 0, 50, 0, 50, -1, 0, 0⟩ 5) []
        "Metrics updated successfully") ∧
    (handleMetricsUpdate 1 ⟨50, 0, 50, 0, 50, -1, 0, 0⟩ 7 5
      { servers := [⟨1, "A", "h", "ip", 22, "Linux", "1", "online", 7, 0⟩]
        metrics := [], alerts := [], apiKeys := [], users := []
        webhookLogs := [], nextServerId := 2 }).1.metrics =
      [mkMetric 1 ⟨50, 0, 50, 0, 50, -1, 0, 0⟩ 5] ∧
    (mkMetric 1 ⟨50, 0, 50, 0, 50, -1, 0, 0⟩ 5).networkIn < 0 ∧
    (getMetricsParse ⟨"-5", "", "", "", "", "", "", "", "", "", "", ""⟩).cpuUsage < 0 := by
  refine ⟨by decide, by decide, by decide, ?_⟩
  have : (getMetricsParse ⟨"-5", "", "", "", "", "", "", "", "", "", "", ""⟩).cpuUsage =
      min (jsOrQ (jsParseFloat "-5") 0) 100 := rfl
  rw [this, jsParseFloat_neg_five]
  norm_num [jsOrQ]

/-- Claim C4 (amended): percentages collected by `getMetrics` are clamped
from above to 100 and a non-numeric reading defaults to 0, but there is
no lower clamp; snapshots persisted by `update_metrics` have the three
percentage fields validated into `[0,100]`, while byte/count fields are
stored exactly as submitted with no sign constraint. -/
theorem metrics_bounds_amended :
    (∀ raw : RawOutputs,
      (getMetricsParse raw).cpuUsage ≤ 100 ∧
      (getMetricsParse raw).ramUsagePercent ≤ 100 ∧
      (getMetricsParse raw).diskUsagePercent ≤ 100 ∧
      (jsParseFloat raw.cpuStdout = none → (getMetricsParse raw).cpuUsage = 0) ∧
      (jsParseFloat raw.ramStdout = none → (getMetricsParse raw).ramUsagePercent = 0) ∧
      (jsParseFloat raw.diskStdout = none → (getMetricsParse raw).diskUsagePercent = 0)) ∧
    (∀ (sid uid now : ℕ) (st : DbState) (m : MetricsInput) (r : ActionResult),
      (handleMetricsUpdate sid m uid now st).2 = .ok r →
      (handleMetricsUpdate sid m uid now st).1.metrics = st.metrics ++ [mkMetric sid m now] ∧
      0 ≤ m.cpuUsage ∧ m.cpuUsage ≤ 100 ∧ 0 ≤ m.ramUsagePercent ∧
      m.ramUsagePercent ≤ 100 ∧ 0 ≤ m.diskUsagePercent ∧ m.diskUsagePercent ≤ 100) := by
  constructor
  · intro raw
    refine ⟨min_le_right _ _, min_le_right _ _, min_le_right _ _, ?_, ?_, ?_⟩ <;>
      intro hn <;> simp [getMetricsParse, hn, jsOrQ]
  · intro sid uid now st m r h
    have hsplit : ∃ server, getServerById sid st = some server ∧
        server.createdBy = uid ∧ metricsOutOfRange m = false := by
      rcases hget : getServerById sid st with _ | server
      · unfold handleMetricsUpdate at h
        rw [hget] at h
        simp at h
      · by_cases ho : server.createdBy = uid
        · by_cases hv : metricsOutOfRange m
          · unfold handleMetricsUpdate at h
            rw [hget] at h
            simp [ho, hv] at h
          · exact ⟨server, rfl, ho, by simpa using hv⟩
        · unfold handleMetricsUpdate at h
          rw [hget] at h
          simp [ho] at h
    obtain ⟨server, hget, ho, hv⟩ := hsplit
    have hok := handleMetricsUpdate_ok sid uid now st server m hget ho hv
    have hb := hv
    simp only [metricsOutOfRange, Bool.or_eq_false_iff, decide_eq_false_iff_not,
      not_lt] at hb
    obtain ⟨⟨⟨⟨⟨h1, h2⟩, h3⟩, h4⟩, h5⟩, h6⟩ := hb
    exact ⟨by rw [hok]; simp [updateServer, createMetric], h1, h2, h3, h4, h5, h6⟩

/-- Witness for C4 (amended): a non-numeric cpu reading stores 0; a
concrete in-range submission persists its row with bounded percentages. -/
theorem metrics_bounds_amended_witness :
    (getMetricsParse ⟨"zz", "", "", "", "", "", "", "", "", "", "", ""⟩).cpuUsage = 0 ∧
    (handleMetricsUpdate 1 ⟨50, 0, 50, 0, 50, 0, 0, 0⟩ 7 5
      { servers := [⟨1, "A", "h", "ip", 22, "Linux", "1", "online", 7, 0⟩]
        metrics := [], alerts := [], apiKeys := [], users := []
        webhookLogs := [], nextServerId := 2 }).1.metrics =
      [] ++ [mkMetric 1 ⟨50, 0, 50, 0, 50, 0, 0, 0⟩ 5] :=
  ⟨((metrics_bounds_amended.1 ⟨"zz", "", "", "", "", "", "", "", "", "", "", ""⟩).2.2.2.1
      (by decide)),
   (metrics_bounds_amended.2 1 7 5
      { servers := [⟨1, "A", "h", "ip", 22, "Linux", "1", "online", 7, 0⟩]
        metrics := [], alerts := [], apiKeys := [], users := []
        webhookLogs := [], nextServerId := 2 }
      ⟨50, 0, 50, 0, 50, 0, 0, 0⟩
      (.metricsUpdated (mkMetric 1 ⟨50, 0, 50, 0, 50, 0, 0, 0⟩ 5) []
        "Metrics updated successfully")
      (by decide)).1⟩

/-- `handleCreateServer` writes no audit row. -/
theorem handleCreateServer_logs (name hostname ipAddress : Option String)
    (port : Option ℕ) (os osVersion : Option String) (userId now : ℕ)
    (st : DbState) :
    (handleCreateServer name hostname ipAddress port os osVersion
      userId now st).1.webhookLogs = st.webhookLogs := by
  unfold handleCreateServer
  split
  · rfl
  · simp [createMetric, createServer]

/-- `handleDeleteServer` writes no audit row. -/
theorem handleDeleteServer_logs (sid uid : ℕ) (st : DbState) :
    (handleDeleteServer sid uid st).1.webhookLogs = st.webhookLogs := by
  unfold handleDeleteServer
  split
  · rfl
  · split
    · rfl
    · simp [deleteServer]

/-- `handleServerStatusChange` writes no audit row. -/
theorem handleServerStatusChange_logs (sid : ℕ) (action : String)
    (uid now : ℕ) (st : DbState) :
    (handleServerStatusChange sid action uid now st).1.webhookLogs =
      st.webhookLogs := by
  unfold handleServerStatusChange
  split
  · rfl
  · split
    · rfl
    · simp [updateServer]

/-- `handleMetricsUpdate` writes no audit row. -/
theorem handleMetricsUpdate_logs (sid : ℕ) (m : MetricsInput)
    (uid now : ℕ) (st : DbState) :
    (handleMetricsUpdate sid m uid now st).1.webhookLogs = st.webhookLogs := by
  unfold handleMetricsUpdate
  split
  · rfl
  · split
    · rfl
    · split
      · rfl
      · simp [foldl_createAlert_eq, updateServer, createMetric]

/-- `processWebhook` writes no audit row: every branch either returns the
state unchanged or delegates to a handler. -/
theorem processWebhook_logs (payload : WebhookPayload) (uid now : ℕ)
    (st : DbState) :
    (processWebhook payload uid now st).1.webhookLogs = st.webhookLogs := by
  unfold processWebhook
  repeat' split
  all_goals
    first
    | rfl
    | apply handleCreateServer_logs
    | apply handleDeleteServer_logs
    | apply handleServerStatusChange_logs
    | apply handleMetricsUpdate_logs

/-- Audit bookkeeping of the `try` block: an error leaves the audit trail
untouched (the `catch` in `handleEvent` writes the failure row); a
success appends exactly the success row attributed to the user resolved
from the API key. -/
theorem handleEventTry_logs (input : HandleEventInput) (now : ℕ) (st : DbState) :
    (∀ st1 e, handleEventTry input now st = (st1, .error e) →
      st1.webhookLogs = st.webhookLogs) ∧
    (∀ st1 r, handleEventTry input now st = (st1, .ok r) →
      ∃ apiKey user, getApiKeyByKey input.apiKey st = some apiKey ∧
        apiKey.active = true ∧ getUserById apiKey.userId st = some user ∧
        st1.webhookLogs = st.webhookLogs ++
          [{ userId := user.id, action := input.action, serverId := input.serverId
             response := .ok r, status := "success", timestamp := now }]) := by
  unfold handleEventTry
  split
  · refine ⟨fun st1 e h => ?_, fun st1 r h => ?_⟩
    · injection h with h1 h2
      rw [← h1]
    · injection h with h1 h2
      exact absurd h2 (by simp)
  · split
    · refine ⟨fun st1 e h => ?_, fun st1 r h => ?_⟩
      · injection h with h1 h2
        rw [← h1]
      · injection h with h1 h2
        exact absurd h2 (by simp)
    · rename_i apiKey hk ha
      split
      · refine ⟨fun st1 e h => ?_, fun st1 r h => ?_⟩
        · injection h with h1 h2
          rw [← h1]
        · injection h with h1 h2
          exact absurd h2 (by simp)
      · rename_i user hu
        split
        · rename_i stp e hw
          have hpres : stp.webhookLogs = st.webhookLogs := by
            have hp := processWebhook_logs
              { action := input.action, serverId := input.serverId
                data := input.data.getD .empty, timestamp := now } user.id now st
            rw [hw] at hp
            exact hp
          refine ⟨fun st1 e1 h => ?_, fun st1 r1 h => ?_⟩
          · injection h with h1 h2
            rw [← h1]
            exact hpres
          · injection h with h1 h2
            exact absurd h2 (by simp)
        · rename_i stp result hw
          have hpres : stp.webhookLogs = st.webhookLogs := by
            have hp := processWebhook_logs
              { action := input.action, serverId := input.serverId
                data := input.data.getD .empty, timestamp := now } user.id now st
            rw [hw] at hp
            exact hp
          refine ⟨fun st1 e1 h => ?_, fun st1 r1 h => ?_⟩
          · injection h with h1 h2
            exact absurd h2 (by simp)
          · injection h with h1 h2
            injection h2 with h3
            refine ⟨apiKey, user, hk, by simpa using ha, hu, ?_⟩
            rw [← h1, ← h3]
            simp [createWebhookLog, hpres]

/-- Claim C1: every `handleEvent` dispatch appends exactly one webhook
audit row before returning or rethrowing — on success a `success` row
attributed to the user resolved from the API key, on any failure a
`failed` row attributed to the sentinel `userId 0` carrying the error
text. -/
theorem handleEvent_audit_once (input : HandleEventInput) (now : ℕ) (st : DbState) :
    (handleEvent input now st).1.webhookLogs.length = st.webhookLogs.length + 1 ∧
    (∀ r, (handleEvent input now st).2 = .ok r →
      ∃ apiKey user, getApiKeyByKey input.apiKey st = some apiKey ∧
        apiKey.active = true ∧ getUserById apiKey.userId st = some user ∧
        (handleEvent input now st).1.webhookLogs = st.webhookLogs ++
          [{ userId := user.id, action := input.action, serverId := input.serverId
             response := .ok r, status := "success", timestamp := now }]) ∧
    (∀ e, (handleEvent input now st).2 = .error e →
      (handleEvent input now st).1.webhookLogs = st.webhookLogs ++
        [{ userId := 0, action := input.action, serverId := input.serverId
           response := .err e.message, status := "failed", timestamp := now }]) := by
  have htry := handleEventTry_logs input now st
  unfold handleEvent
  rcases hw : handleEventTry input now st with ⟨st1, res⟩
  rcases res with e | r
  · have hlogs : st1.webhookLogs = st.webhookLogs := htry.1 st1 e hw
    simp only [createWebhookLog]
    refine ⟨by simp [hlogs], fun r hr => absurd hr (by simp), fun e1 he1 => ?_⟩
    have he : e1 = e := by
      injection he1 with h2
      rw [h2]
    rw [he, hlogs]
  · obtain ⟨apiKey, user, hk, ha, hu, hlogs⟩ := htry.2 st1 r hw
    refine ⟨by simp [hlogs], fun r1 hr1 => ?_, fun e1 he1 => absurd he1 (by simp)⟩
    have hr : r1 = r := by
      injection hr1 with h2
      rw [h2]
    exact ⟨apiKey, user, hk, ha, hu, by rw [hr]; exact hlogs⟩

/-- Witness for C1: a successful `delete_server` dispatch through a valid
key, and a failing dispatch with an unknown key, each appending its one
audit row. -/
theorem handleEvent_audit_once_witness :
    (handleEvent ⟨"delete_server", some 1, none, "sk_k", none⟩ 5
      { servers := [⟨1, "A", "h", "ip", 22, "Linux", "1", "online", 4, 0⟩]
        metrics := [], alerts := [], apiKeys := [⟨4, "sk_k", true⟩]
        users := [⟨4⟩], webhookLogs := [], nextServerId := 2 }).1.webhookLogs =
      [] ++ [{ userId := 4, action := "delete_server", serverId := some 1
               response := .ok (.deleted "Server A deleted successfully")
               status := "success", timestamp := 5 }] ∧
    (handleEvent ⟨"delete_server", some 1, none, "bad", none⟩ 5
      { servers := [], metrics := [], alerts := [], apiKeys := []
        users := [], webhookLogs := [], nextServerId := 1 }).1.webhookLogs =
      [] ++ [{ userId := 0, action := "delete_server", serverId := some 1
               response := .err "Invalid or inactive API key"
               status := "failed", timestamp := 5 }] := by
  constructor
  · obtain ⟨apiKey, user, hk, ha, hu, hlogs⟩ :=
      (handleEvent_audit_once ⟨"delete_server", some 1, none, "sk_k", none⟩ 5
        { servers := [⟨1, "A", "h", "ip", 22, "Linux", "1", "online", 4, 0⟩]
          metrics := [], alerts := [], apiKeys := [⟨4, "sk_k", true⟩]
          users := [⟨4⟩], webhookLogs := [], nextServerId := 2 }).2.1
        (.deleted "Server A deleted successfully") (by decide)
    have h4 : user = ⟨4⟩ := by
      have : apiKey = ⟨4, "sk_k", true⟩ := by
        have := hk
        simp [getApiKeyByKey, List.find?] at this
        exact this.symm
      rw [this] at hu
      simp [getUserById, List.find?] at hu
      exact hu.symm
    rw [h4] at hlogs
    exact hlogs
  · exact (handleEvent_audit_once ⟨"delete_server", some 1, none, "bad", none⟩ 5
      { servers := [], metrics := [], alerts := [], apiKeys := []
        users := [], webhookLogs := [], nextServerId := 1 }).2.2
      { code := .UNAUTHORIZED, message := "Invalid or inactive API key" } (by decide)
